import Mathlib

/-
A shallow embedding of the campfire-companion API client module
(frontend/src/api/client.js across its revisions) in Lean 4.

The embedding models:
  - JSON values and a model of the platform primitive JSON.parse
    (numbers restricted to integers; the client never computes with numbers),
  - the shared response handler handleResponse of the final revision,
  - request construction for every operation (URL, method, headers, body),
    including URLSearchParams serialization and the withAuth header wrapper,
  - the module-level mutable auth token as explicit state.

Outcomes of an operation are modelled by FetchResult: a resolved value
(null modelled as none), a thrown Error carrying its message string, or a
propagated JSON parse error on a success body.
-/

/-- JSON values. Numbers are modelled as integers: the client code never
constructs or computes with fractional numbers, it only passes parsed
values through. Object fields keep their textual order; duplicate keys are
resolved by lookupLast (last occurrence wins, as in JSON.parse). -/
inductive Json where
  | null : Json
  | bool (b : Bool) : Json
  | num (n : Int) : Json
  | str (s : String) : Json
  | arr (elems : List Json) : Json
  | obj (fields : List (String × Json)) : Json

/-- JSON whitespace, as in the JSON grammar. -/
def isJsonWs (c : Char) : Bool :=
  c = ' ' || c = '\t' || c = '\n' || c = '\r'

/-- Drop leading JSON whitespace. -/
def skipWs : List Char → List Char
  | [] => []
  | c :: cs => if isJsonWs c then skipWs cs else c :: cs

/-- Value of a hexadecimal digit character. -/
def hexVal (c : Char) : Option Nat :=
  if '0' ≤ c ∧ c ≤ '9' then some (c.toNat - 48)
  else if 'a' ≤ c ∧ c ≤ 'f' then some (c.toNat - 87)
  else if 'A' ≤ c ∧ c ≤ 'F' then some (c.toNat - 55)
  else none

/-- Single-character JSON string escapes. -/
def escChar (c : Char) : Option Char :=
  if c = '"' then some '"'
  else if c = '\\' then some '\\'
  else if c = '/' then some '/'
  else if c = 'b' then some (Char.ofNat 8)
  else if c = 'f' then some (Char.ofNat 12)
  else if c = 'n' then some '\n'
  else if c = 'r' then some '\r'
  else if c = 't' then some '\t'
  else none

/-- Parse the characters of a JSON string after the opening quote, up to and
including the closing quote. Returns the decoded characters and the rest. -/
def parseStrChars : List Char → Option (List Char × List Char)
  | [] => none
  | '"' :: rest => some ([], rest)
  | '\\' :: e :: rest =>
    match escChar e with
    | some c => (parseStrChars rest).map fun p => (c :: p.1, p.2)
    | none =>
      if e = 'u' then
        match rest with
        | a :: b :: c :: d :: rest2 =>
          match hexVal a, hexVal b, hexVal c, hexVal d with
          | some x, some y, some z, some w =>
            (parseStrChars rest2).map fun p =>
              (Char.ofNat (4096 * x + 256 * y + 16 * z + w) :: p.1, p.2)
          | _, _, _, _ => none
        | _ => none
      else none
  | c :: rest =>
    if c.toNat < 32 then none
    else (parseStrChars rest).map fun p => (c :: p.1, p.2)

/-- Consume a run of decimal digits, accumulating their value. -/
def digitsToNat (acc : Nat) : List Char → Nat × List Char
  | [] => (acc, [])
  | c :: cs =>
    if c.isDigit then digitsToNat (acc * 10 + (c.toNat - 48)) cs
    else (acc, c :: cs)

/-- Parse a JSON natural-number literal (no leading zeros). -/
def parseNatLit : List Char → Option (Nat × List Char)
  | [] => none
  | c :: cs =>
    if c = '0' then
      match cs with
      | [] => some (0, [])
      | d :: _ => if d.isDigit then none else some (0, cs)
    else if c.isDigit then some (digitsToNat (c.toNat - 48) cs)
    else none

/-- Parse a JSON integer literal with optional minus sign. -/
def parseNum : List Char → Option (Json × List Char)
  | '-' :: cs =>
    match parseNatLit cs with
    | some (n, rest) => some (Json.num (-(n : Int)), rest)
    | none => none
  | cs => (parseNatLit cs).map fun p => (Json.num (p.1 : Int), p.2)

mutual

/-- Parse one JSON value. Fuel-indexed recursive descent; the fuel only
needs to exceed the nesting workload of the input. -/
def parseVal : Nat → List Char → Option (Json × List Char)
  | 0, _ => none
  | fuel + 1, cs =>
    match skipWs cs with
    | [] => none
    | 'n' :: 'u' :: 'l' :: 'l' :: rest => some (Json.null, rest)
    | 't' :: 'r' :: 'u' :: 'e' :: rest => some (Json.bool true, rest)
    | 'f' :: 'a' :: 'l' :: 's' :: 'e' :: rest => some (Json.bool false, rest)
    | '"' :: rest => (parseStrChars rest).map fun p => (Json.str (String.mk p.1), p.2)
    | '[' :: rest =>
      match skipWs rest with
      | ']' :: rest2 => some (Json.arr [], rest2)
      | cs2 => (parseArrItems fuel cs2).map fun p => (Json.arr p.1, p.2)
    | c :: rest =>
      if c = Char.ofNat 123 then
        match skipWs rest with
        | [] => none
        | c2 :: rest2 =>
          if c2 = Char.ofNat 125 then some (Json.obj [], rest2)
          else (parseObjItems fuel (c2 :: rest2)).map fun p => (Json.obj p.1, p.2)
      else if c = '-' || c.isDigit then parseNum (c :: rest)
      else none
termination_by structural fuel => fuel

/-- Parse the comma-separated items of a nonempty JSON array, up to and
including the closing bracket. -/
def parseArrItems : Nat → List Char → Option (List Json × List Char)
  | 0, _ => none
  | fuel + 1, cs =>
    match parseVal fuel cs with
    | none => none
    | some (v, rest) =>
      match skipWs rest with
      | ',' :: rest2 => (parseArrItems fuel rest2).map fun p => (v :: p.1, p.2)
      | ']' :: rest2 => some ([v], rest2)
      | _ => none
termination_by structural fuel => fuel

/-- Parse the comma-separated members of a nonempty JSON object, up to and
including the closing brace. -/
def parseObjItems : Nat → List Char → Option (List (String × Json) × List Char)
  | 0, _ => none
  | fuel + 1, cs =>
    match skipWs cs with
    | '"' :: rest =>
      match parseStrChars rest with
      | none => none
      | some (keyChars, rest2) =>
        match skipWs rest2 with
        | ':' :: rest3 =>
          match parseVal fuel rest3 with
          | none => none
          | some (v, rest4) =>
            match skipWs rest4 with
            | ',' :: rest5 =>
              (parseObjItems fuel rest5).map fun p =>
                ((String.mk keyChars, v) :: p.1, p.2)
            | c :: rest5 =>
              if c = Char.ofNat 125 then some ([(String.mk keyChars, v)], rest5)
              else none
            | [] => none
        | _ => none
    | _ => none
termination_by structural fuel => fuel

end

/-- Model of the platform primitive JSON.parse: some value on success,
none when the text is not well-formed JSON (JSON.parse throws). -/
def parseJson (s : String) : Option Json :=
  match parseVal (s.length + 1) s.toList with
  | some (v, rest) => if skipWs rest = [] then some v else none
  | none => none

mutual

/-- Model of the JS string coercion String(v) applied to a JSON-parsed
value, as performed by the Error constructor on its message argument. -/
def jsToString : Json → String
  | Json.null => "null"
  | Json.bool true => "true"
  | Json.bool false => "false"
  | Json.num n => toString n
  | Json.str s => s
  | Json.arr xs => jsToStringArr xs
  | Json.obj _ => "[object Object]"
termination_by structural j => j

/-- Array coercion: elements joined by commas, null elements rendered
as the empty string, as in Array.prototype.toString. -/
def jsToStringArr : List Json → String
  | [] => ""
  | [Json.null] => ""
  | [v] => jsToString v
  | Json.null :: vs => "," ++ jsToStringArr vs
  | v :: vs => jsToString v ++ "," ++ jsToStringArr vs
termination_by structural xs => xs

end

/-- Lowercase hexadecimal digit character. -/
def hexDigitLower (n : Nat) : Char :=
  if n < 10 then Char.ofNat (48 + n) else Char.ofNat (87 + n)

/-- Escape one character for a JSON string literal, as JSON.stringify does. -/
def quoteChar (c : Char) : String :=
  if c = '"' then "\\\""
  else if c = '\\' then "\\\\"
  else if c = '\n' then "\\n"
  else if c = '\t' then "\\t"
  else if c = '\r' then "\\r"
  else if c.toNat = 8 then "\\b"
  else if c.toNat = 12 then "\\f"
  else if c.toNat < 32 then
    "\\u00" ++ String.singleton (hexDigitLower (c.toNat / 16))
      ++ String.singleton (hexDigitLower (c.toNat % 16))
  else String.singleton c

/-- Quote a string as a JSON string literal. -/
def quoteString (s : String) : String :=
  "\"" ++ String.join (s.toList.map quoteChar) ++ "\""

mutual

/-- Model of the platform primitive JSON.stringify on JSON values. -/
def jsonStringify : Json → String
  | Json.null => "null"
  | Json.bool true => "true"
  | Json.bool false => "false"
  | Json.num n => toString n
  | Json.str s => quoteString s
  | Json.arr xs => "[" ++ stringifyArr xs ++ "]"
  | Json.obj fs => "\x7b" ++ stringifyObj fs ++ "\x7d"
termination_by structural j => j

/-- Serialize array elements, comma separated. -/
def stringifyArr : List Json → String
  | [] => ""
  | [v] => jsonStringify v
  | v :: vs => jsonStringify v ++ "," ++ stringifyArr vs
termination_by structural xs => xs

/-- Serialize object members, comma separated. -/
def stringifyObj : List (String × Json) → String
  | [] => ""
  | [(k, v)] => quoteString k ++ ":" ++ jsonStringify v
  | (k, v) :: fs => quoteString k ++ ":" ++ jsonStringify v ++ "," ++ stringifyObj fs
termination_by structural fs => fs

end

/-- Last binding of a key in an association list. JSON.parse resolves
duplicate object keys by keeping the last occurrence, and property access
on the resulting object returns that value. -/
def lookupLast : List (String × Json) → String → Option Json
  | [], _ => none
  | (k, v) :: rest, key =>
    match lookupLast rest key with
    | some w => some w
    | none => if k = key then some v else none

/-- Model of JS property access value.key on a JSON-parsed value: a field
lookup on objects, undefined (none) on every other kind of value. -/
def jsField (j : Json) (key : String) : Option Json :=
  match j with
  | Json.obj fields => lookupLast fields key
  | _ => none

/-- An HTTP response as the fetch wrappers observe it: a numeric status
and the body text. The methods response.text() and response.json() are
modelled as the body and parseJson of the body. -/
structure Response where
  status : Nat
  body : String

/-- Model of the fetch Response.ok getter: status in the range 200 to 299. -/
def Response.respOk (r : Response) : Bool :=
  decide (200 ≤ r.status ∧ r.status ≤ 299)

/-- Outcome of running a fetch wrapper against a response: the promise
resolves to a value (none models the JS null), or rejects with a thrown
Error carrying a message, or rejects with the SyntaxError that JSON.parse
raised on a malformed success body. -/
inductive FetchResult where
  | ok (value : Option Json) : FetchResult
  | thrown (message : String) : FetchResult
  | parseFailure : FetchResult

/-- The shared response handler of the final revision (part_001 lines 63
to 83). On a non-ok status it parses the body as JSON, substituting an
empty object when parsing fails, and throws an Error whose message is
errorPayload?.detail ?? "Request failed": the fallback is used when the
detail lookup yields undefined (absent field or non-object payload) or
null, and otherwise the message is the string coercion of the detail
value. On 204 it returns null without reading the body; on an empty
success body it returns null; otherwise it returns JSON.parse of the
body, whose failure propagates. -/
def handleResponse (response : Response) : FetchResult :=
  if ! Response.respOk response then
    let errorPayload := (parseJson response.body).getD (Json.obj [])
    match jsField errorPayload "detail" with
    | none => FetchResult.thrown "Request failed"
    | some Json.null => FetchResult.thrown "Request failed"
    | some d => FetchResult.thrown (jsToString d)
  else if response.status = 204 then FetchResult.ok none
  else if response.body = "" then FetchResult.ok none
  else
    match parseJson response.body with
    | some v => FetchResult.ok (some v)
    | none => FetchResult.parseFailure

/-- JS truthiness of a possibly absent string value (undefined and the
empty string are falsy; any nonempty string is truthy). -/
def strTruthy : Option String → Bool
  | some s => decide (s ≠ "")
  | none => false

/-- UTF-8 bytes of a character, for percent-encoding. -/
def utf8Bytes (c : Char) : List Nat :=
  let n := c.toNat
  if n < 128 then [n]
  else if n < 2048 then [192 + n / 64, 128 + n % 64]
  else if n < 65536 then [224 + n / 4096, 128 + (n / 64) % 64, 128 + n % 64]
  else [240 + n / 262144, 128 + (n / 4096) % 64, 128 + (n / 64) % 64, 128 + n % 64]

/-- Uppercase hexadecimal digit character, as percent-encoding uses. -/
def hexDigitUpper (n : Nat) : Char :=
  if n < 10 then Char.ofNat (48 + n) else Char.ofNat (55 + n)

/-- Percent-encode one byte. -/
def percentByte (b : Nat) : String :=
  "%" ++ String.singleton (hexDigitUpper (b / 16))
    ++ String.singleton (hexDigitUpper (b % 16))

/-- Characters the urlencoded serializer leaves as is: alphanumerics and
the four marks asterisk, hyphen, period, underscore. -/
def formUnreserved (c : Char) : Bool :=
  c.isAlphanum || c = '*' || c = '-' || c = '.' || c = Char.ofNat 95

/-- Encode one character as application/x-www-form-urlencoded does:
space becomes plus, unreserved characters stay, anything else is
percent-encoded bytewise. -/
def formEncodeChar (c : Char) : String :=
  if c = ' ' then "+"
  else if formUnreserved c then String.singleton c
  else String.join ((utf8Bytes c).map percentByte)

/-- Model of the urlencoded serialization of a single string. -/
def formEncode (s : String) : String :=
  String.join (s.toList.map formEncodeChar)

/-- Model of URLSearchParams.set: replace the first pair with the given
name and drop later ones, or append when the name is absent. -/
def paramsSet : List (String × String) → String → String → List (String × String)
  | [], key, value => [(key, value)]
  | (k, v) :: rest, key, value =>
    if k = key then (key, value) :: (rest.filter fun p => p.1 ≠ key)
    else (k, v) :: paramsSet rest key value

/-- One serialized name-value pair. -/
def paramPair (p : String × String) : String :=
  formEncode p.1 ++ "=" ++ formEncode p.2

/-- Model of URLSearchParams.toString: pairs joined by ampersands. -/
def paramsToString : List (String × String) → String
  | [] => ""
  | [p] => paramPair p
  | p :: ps => paramPair p ++ "&" ++ paramsToString ps

/-- A constructed fetch call: target URL, method, request headers and
optional serialized body. fetch with no init object is a GET with no
headers and no body. -/
structure Request where
  url : String
  method : String
  headers : List (String × String)
  body : Option String

/-- The hard-coded fallback base URL (used when the environment provides
no override; functions below take the resolved base as a parameter). -/
def defaultApiBaseUrl : String := "http://127.0.0.1:8000/api"

/-- The argument object of lookupCampfireClub: each property may be
absent (none, the JS undefined) or a string. -/
structure LookupArgs where
  query : Option String := none
  id : Option String := none
  url : Option String := none

/-- Query-parameter selection shared verbatim by both revisions of
lookupCampfireClub: a truthy query is sent alone as club, otherwise
truthy id and truthy url are sent independently. -/
def lookupParams (args : LookupArgs) : List (String × String) :=
  if strTruthy args.query then paramsSet [] "club" (args.query.getD "")
  else
    let ps := if strTruthy args.id then paramsSet [] "id" (args.id.getD "") else []
    if strTruthy args.url then paramsSet ps "url" (args.url.getD "") else ps

namespace PreAuth

/-- Target URL of lookupCampfireClub in the pre-authentication revision
(part_001 lines 35 to 50): query string appended only when nonempty,
else the bare endpoint. -/
def lookupCampfireClubTarget (base : String) (args : LookupArgs) : String :=
  let qs := paramsToString (lookupParams args)
  if qs = "" then base ++ "/campfire/clubs/lookup/"
  else base ++ "/campfire/clubs/lookup/?" ++ qs

end PreAuth

/-- The auth token state of the final revision: the single module-level
mutable binding, initially null (none). setAuthToken may store any value,
so the stored value is an optional string. -/
structure ClientState where
  authToken : Option String := none

/-- withAuth of the final revision (part_001 lines 56 to 61): when the
current token is truthy, extend the given headers with an Authorization
header of the form Token value; otherwise return the headers unchanged. -/
def withAuth (authToken : Option String)
    (headers : List (String × String) := []) : List (String × String) :=
  if strTruthy authToken then
    headers ++ [("Authorization", "Token " ++ authToken.getD "")]
  else headers

/-- setAuthToken: replace the stored token with the argument. The pair
collects the requests issued by the call: none. -/
def setAuthToken (token : Option String) (s : ClientState) :
    ClientState × List Request :=
  ({ s with authToken := token }, [])

/-- clearAuthToken: reset the stored token to null. No request issued. -/
def clearAuthToken (s : ClientState) : ClientState × List Request :=
  ({ s with authToken := none }, [])

/-- Request constructed by getHealth: a bare GET, no init object. -/
def getHealthRequest (base : String) : Request :=
  { url := base ++ "/health/", method := "GET", headers := [], body := none }

/-- Request constructed by importCampfireEvent in the final revision:
POST with withAuth-wrapped content-type header and JSON body. -/
def importCampfireEventRequest (base : String) (authToken : Option String)
    (eventReference : String) : Request :=
  { url := base ++ "/campfire/events/import/"
    method := "POST"
    headers := withAuth authToken [("Content-Type", "application/json")]
    body := some (jsonStringify (Json.obj [("event", Json.str eventReference)])) }

/-- Request constructed by storeCampfireToken in the final revision:
POST with withAuth-wrapped content-type header and JSON body. -/
def storeCampfireTokenRequest (base : String) (authToken : Option String)
    (token : String) : Request :=
  { url := base ++ "/campfire/tokens/"
    method := "POST"
    headers := withAuth authToken [("Content-Type", "application/json")]
    body := some (jsonStringify (Json.obj [("token", Json.str token)])) }

/-- Request constructed by importCampfireClubHistory: authenticated POST. -/
def importCampfireClubHistoryRequest (base : String) (authToken : Option String)
    (clubReference : String) : Request :=
  { url := base ++ "/campfire/clubs/import-history/"
    method := "POST"
    headers := withAuth authToken [("Content-Type", "application/json")]
    body := some (jsonStringify (Json.obj [("club", Json.str clubReference)])) }

/-- Request constructed by lookupCampfireClub in the final revision
(part_001 lines 128 to 145): GET against the conditionally built target,
with withAuth applied to an empty header object. -/
def lookupCampfireClubRequest (base : String) (authToken : Option String)
    (args : LookupArgs) : Request :=
  let qs := paramsToString (lookupParams args)
  let target :=
    if qs = "" then base ++ "/campfire/clubs/lookup/"
    else base ++ "/campfire/clubs/lookup/?" ++ qs
  { url := target, method := "GET", headers := withAuth authToken, body := none }

/-- Target URL of lookupCampfireClub in the final revision. -/
def lookupCampfireClubTarget (base : String) (args : LookupArgs) : String :=
  (lookupCampfireClubRequest base none args).url

/-- Request constructed by registerUser: unauthenticated POST of the
credentials (headers written literally, no withAuth call). -/
def registerUserRequest (base username password : String) : Request :=
  { url := base ++ "/auth/register/"
    method := "POST"
    headers := [("Content-Type", "application/json")]
    body := some (jsonStringify (Json.obj
      [("username", Json.str username), ("password", Json.str password)])) }

/-- Request constructed by loginUser: unauthenticated POST of the
credentials (headers written literally, no withAuth call). -/
def loginUserRequest (base username password : String) : Request :=
  { url := base ++ "/auth/login/"
    method := "POST"
    headers := [("Content-Type", "application/json")]
    body := some (jsonStringify (Json.obj
      [("username", Json.str username), ("password", Json.str password)])) }

/-- Request constructed by logoutUser: authenticated POST, no body. -/
def logoutUserRequest (base : String) (authToken : Option String) : Request :=
  { url := base ++ "/auth/logout/"
    method := "POST"
    headers := withAuth authToken [("Content-Type", "application/json")]
    body := none }

/-- Request constructed by linkCampfireAccount: authenticated POST with
snake-case payload keys. -/
def linkCampfireAccountRequest (base : String) (authToken : Option String)
    (memberId username : String) : Request :=
  { url := base ++ "/auth/campfire/"
    method := "POST"
    headers := withAuth authToken [("Content-Type", "application/json")]
    body := some (jsonStringify (Json.obj
      [("campfire_member_id", Json.str memberId),
       ("campfire_username", Json.str username)])) }

/-- Request constructed by unlinkCampfireAccount: authenticated DELETE. -/
def unlinkCampfireAccountRequest (base : String) (authToken : Option String) :
    Request :=
  { url := base ++ "/auth/campfire/"
    method := "DELETE"
    headers := withAuth authToken [("Content-Type", "application/json")]
    body := none }

/-- Whether a request carries any header with the given name. -/
def hasHeaderNamed (r : Request) (name : String) : Bool :=
  r.headers.any fun p => p.1 = name

/-- C2: for every operation (all of which return handleResponse of their
response), a 204 status resolves to null regardless of body content and
without parsing it; any other 2xx status with empty body text resolves to
null; and a 2xx body that parses as JSON resolves to the parsed value
(equality of Json values in this model is structural equality). -/
theorem c2_success_body_contract (status : Nat) (body : String) (v : Json)
    (hok : Response.respOk { status := status, body := body } = true) :
    handleResponse { status := 204, body := body } = FetchResult.ok none
    ∧ handleResponse { status := status, body := "" } = FetchResult.ok none
    ∧ (status ≠ 204 → body ≠ "" → parseJson body = some v →
        handleResponse { status := status, body := body } = FetchResult.ok (some v)) := by
  refine ⟨rfl, ?_, ?_⟩
  · have h : Response.respOk { status := status, body := "" } = true := hok
    by_cases h204 : status = 204
    · subst h204; rfl
    · simp [handleResponse, h, h204]
  · intro h204 hbody hparse
    simp [handleResponse, hok, h204, hbody, hparse]

/-- C2 witness: a 200 response with body [1,2] resolves to the parsed
array, and the 204 and empty-body cases at the same status resolve null. -/
theorem c2_witness :
    handleResponse { status := 204, body := "ignored, not JSON" } = FetchResult.ok none
    ∧ handleResponse { status := 200, body := "" } = FetchResult.ok none
    ∧ handleResponse { status := 200, body := "[1,2]" } =
        FetchResult.ok (some (Json.arr [Json.num 1, Json.num 2])) := by
  have h := c2_success_body_contract 200 "[1,2]"
    (Json.arr [Json.num 1, Json.num 2]) rfl
  refine ⟨?_, h.2.1, h.2.2 (by decide) (by decide) rfl⟩
  exact (c2_success_body_contract 204 "ignored, not JSON" Json.null rfl).1

/-- C6: a 2xx (non-204) response whose body text is nonempty but not
well-formed JSON makes the operation propagate the JSON.parse failure;
it is never converted into a resolved success value. -/
theorem c6_malformed_success_body (status : Nat) (body : String)
    (hok : Response.respOk { status := status, body := body } = true)
    (h204 : status ≠ 204) (hbody : body ≠ "") (hparse : parseJson body = none) :
    handleResponse { status := status, body := body } = FetchResult.parseFailure
    ∧ ∀ v, handleResponse { status := status, body := body } ≠ FetchResult.ok v := by
  have h : handleResponse { status := status, body := body } = FetchResult.parseFailure := by
    simp [handleResponse, hok, h204, hbody, hparse]
  exact ⟨h, fun v hv => by rw [h] at hv; exact FetchResult.noConfusion hv⟩

/-- C6 witness: a 200 response with the body text not json propagates a
parse failure. -/
theorem c6_witness :
    handleResponse { status := 200, body := "not json" } = FetchResult.parseFailure :=
  (c6_malformed_success_body 200 "not json" rfl (by decide) (by decide) rfl).1

/-- C1 (amended): on a non-2xx response the thrown message is the string
coercion of the detail field when that field is present with a non-null
value (the field value itself when it is a string), and the fallback
message Request failed when the detail lookup yields undefined (absent
field, non-object payload, or unparseable or empty body) or null. -/
theorem c1_error_detail_message (status : Nat) (body : String)
    (hfail : Response.respOk { status := status, body := body } = false) :
    (∀ d, jsField ((parseJson body).getD (Json.obj [])) "detail" = some d →
        d ≠ Json.null →
        handleResponse { status := status, body := body } =
          FetchResult.thrown (jsToString d))
    ∧ (∀ msg, jsField ((parseJson body).getD (Json.obj [])) "detail" =
          some (Json.str msg) →
        handleResponse { status := status, body := body } = FetchResult.thrown msg)
    ∧ (jsField ((parseJson body).getD (Json.obj [])) "detail" = none ∨
        jsField ((parseJson body).getD (Json.obj [])) "detail" = some Json.null →
        handleResponse { status := status, body := body } =
          FetchResult.thrown "Request failed") := by
  refine ⟨?_, ?_, ?_⟩
  · intro d hd hdnull
    cases d
    case null => exact absurd rfl hdnull
    all_goals simp only [handleResponse, hfail, Bool.not_false, if_true, hd]
  · intro msg hd
    simp only [handleResponse, hfail, Bool.not_false, if_true, hd]
    rfl
  · intro hd
    rcases hd with hd | hd <;> simp only [handleResponse, hfail, Bool.not_false, if_true, hd]

/-- C1 counterexample: the body with the detail field present but null is
well-formed JSON whose detail field is present, yet the thrown message is
the fallback Request failed, which differs from the string form of the
detail value. -/
theorem c1_counterexample_null_detail :
    parseJson "\x7b\"detail\":null\x7d" = some (Json.obj [("detail", Json.null)])
    ∧ jsField (Json.obj [("detail", Json.null)]) "detail" = some Json.null
    ∧ handleResponse { status := 400, body := "\x7b\"detail\":null\x7d" } =
        FetchResult.thrown "Request failed"
    ∧ "Request failed" ≠ jsToString Json.null :=
  ⟨rfl, rfl, rfl, by decide⟩

/-- C1 witness: a 404 response whose body carries detail boom throws an
error with message boom, and a 502 response with a non-JSON body throws
the fallback message. -/
theorem c1_witness :
    handleResponse { status := 404, body := "\x7b\"detail\":\"boom\"\x7d" } =
      FetchResult.thrown "boom"
    ∧ handleResponse { status := 502, body := "<html>oops</html>" } =
      FetchResult.thrown "Request failed" :=
  ⟨(c1_error_detail_message 404 "\x7b\"detail\":\"boom\"\x7d" rfl).2.1 "boom" rfl,
   (c1_error_detail_message 502 "<html>oops</html>" rfl).2.2 (Or.inl rfl)⟩

/-- A serialized name-value pair is never the empty string: it contains
the equals sign. -/
theorem paramPair_length_pos (p : String × String) : 0 < (paramPair p).length := by
  rw [paramPair, String.length_append, String.length_append]
  have h1 : ("=" : String).length = 1 := rfl
  omega

/-- The serialization of a nonempty parameter list is a nonempty string. -/
theorem paramsToString_cons_ne_empty (p : String × String)
    (ps : List (String × String)) : paramsToString (p :: ps) ≠ "" := by
  have hp := paramPair_length_pos p
  intro h
  have h0 : (paramsToString (p :: ps)).length = 0 := by rw [h]; rfl
  cases ps with
  | nil =>
    rw [show paramsToString [p] = paramPair p from rfl] at h0
    omega
  | cons q qs =>
    rw [show paramsToString (p :: q :: qs) =
          paramPair p ++ "&" ++ paramsToString (q :: qs) from rfl,
        String.length_append, String.length_append] at h0
    omega

/-- In the untruthy-query branch, the parameters are the truthy id
followed by the truthy url, independently of one another. -/
theorem lookupParams_else (args : LookupArgs) (h : strTruthy args.query = false) :
    lookupParams args =
      (if strTruthy args.id then [("id", args.id.getD "")] else []) ++
      (if strTruthy args.url then [("url", args.url.getD "")] else []) := by
  by_cases hid : strTruthy args.id <;> by_cases hurl : strTruthy args.url <;>
    simp [lookupParams, h, hid, hurl, paramsSet]

/-- C3: lookupCampfireClub sends a truthy query alone as the single
parameter club (id and url are dropped even when set); otherwise id and
url are sent independently; a query string is appended exactly when at
least one parameter is present, the bare endpoint being requested
otherwise; and the id example produces the documented URL. -/
theorem c3_lookup_url_construction (base : String) (args : LookupArgs) :
    (∀ q, args.query = some q → q ≠ "" → lookupParams args = [("club", q)])
    ∧ (strTruthy args.query = false →
        lookupParams args =
          (if strTruthy args.id then [("id", args.id.getD "")] else []) ++
          (if strTruthy args.url then [("url", args.url.getD "")] else []))
    ∧ (lookupParams args = [] →
        lookupCampfireClubTarget base args = base ++ "/campfire/clubs/lookup/")
    ∧ (lookupParams args ≠ [] →
        lookupCampfireClubTarget base args =
          base ++ "/campfire/clubs/lookup/?" ++ paramsToString (lookupParams args))
    ∧ lookupCampfireClubTarget base
        { query := none, id := some "b632fc8e-0b41-49de-ade2-21b0cd81db69", url := none } =
        base ++ "/campfire/clubs/lookup/?id=b632fc8e-0b41-49de-ade2-21b0cd81db69" := by
  refine ⟨?_, ?_, ?_, ?_, ?_⟩
  · intro q hq hqne
    simp [lookupParams, hq, strTruthy, hqne, paramsSet]
  · intro hq
    exact lookupParams_else args hq
  · intro h
    simp [lookupCampfireClubTarget, lookupCampfireClubRequest, h, paramsToString]
  · intro h
    match hl : lookupParams args with
    | [] => exact absurd hl h
    | p :: ps =>
      have hqs := paramsToString_cons_ne_empty p ps
      simp [lookupCampfireClubTarget, lookupCampfireClubRequest, hl, hqs]
  · rw [show lookupCampfireClubTarget base
          { query := none, id := some "b632fc8e-0b41-49de-ade2-21b0cd81db69", url := none } =
        base ++ "/campfire/clubs/lookup/?" ++ "id=b632fc8e-0b41-49de-ade2-21b0cd81db69" from rfl,
      String.append_assoc]
    exact congrArg (HAppend.hAppend base) rfl

/-- C3 witness: a truthy query shadows set id and url, and the concrete
id example yields the documented target at the default base URL. -/
theorem c3_witness :
    lookupParams { query := some "foo", id := some "x", url := some "y" } = [("club", "foo")]
    ∧ lookupCampfireClubTarget defaultApiBaseUrl
        { query := none, id := some "b632fc8e-0b41-49de-ade2-21b0cd81db69", url := none } =
        defaultApiBaseUrl ++ "/campfire/clubs/lookup/?id=b632fc8e-0b41-49de-ade2-21b0cd81db69" := by
  have h := c3_lookup_url_construction defaultApiBaseUrl
    { query := some "foo", id := some "x", url := some "y" }
  refine ⟨h.1 "foo" rfl (by decide), ?_⟩
  exact (c3_lookup_url_construction defaultApiBaseUrl
    { query := none, id := some "b632fc8e-0b41-49de-ade2-21b0cd81db69", url := none }).2.2.2.2

/-- C8: an empty-string query is falsy, so lookupCampfireClub treats it
as not supplied: the parameters are exactly those of the id and url
branch and no club parameter is ever sent. -/
theorem c8_empty_query_is_falsy (i u : Option String) :
    lookupParams { query := some "", id := i, url := u } =
      lookupParams { query := none, id := i, url := u }
    ∧ lookupParams { query := some "", id := i, url := u } =
        (if strTruthy i then [("id", i.getD "")] else []) ++
        (if strTruthy u then [("url", u.getD "")] else [])
    ∧ (lookupParams { query := some "", id := i, url := u }).all
        (fun p => p.1 ≠ "club") = true := by
  have h1 : lookupParams { query := some "", id := i, url := u } =
      (if strTruthy i then [("id", i.getD "")] else []) ++
      (if strTruthy u then [("url", u.getD "")] else []) :=
    lookupParams_else { query := some "", id := i, url := u } rfl
  refine ⟨rfl, h1, ?_⟩
  rw [h1]
  by_cases hid : strTruthy i <;> by_cases hurl : strTruthy u <;> simp [hid, hurl]

/-- C10: the pre-authentication revision and the final authenticated
revision of lookupCampfireClub construct the identical target URL for
every argument object, including the bare endpoint with no parameters. -/
theorem c10_lookup_revision_equivalence (base : String) (args : LookupArgs) :
    PreAuth.lookupCampfireClubTarget base args = lookupCampfireClubTarget base args := rfl

/-- C7: setAuthToken and clearAuthToken are pure state updates on the
single module-level mutable binding: setAuthToken stores exactly the new
token whatever was stored before, clearAuthToken stores null, and neither
issues any request. -/
theorem c7_token_mutation_no_network (t : Option String) (s s2 : ClientState) :
    setAuthToken t s = ({ authToken := t }, ([] : List Request))
    ∧ clearAuthToken s2 = ({ authToken := none }, ([] : List Request)) :=
  ⟨rfl, rfl⟩

/-- C4: after setAuthToken with a nonempty token t, each authenticated
operation (importCampfireClubHistory, logoutUser, linkCampfireAccount,
unlinkCampfireAccount) carries the header Authorization: Token t; after
clearAuthToken, none of them carries an Authorization header. -/
theorem c4_auth_header_attachment (t : String) (ht : t ≠ "")
    (base clubRef memberId username : String) (s s2 : ClientState) :
    ((("Authorization", "Token " ++ t) ∈
        (importCampfireClubHistoryRequest base
          ((setAuthToken (some t) s).1.authToken) clubRef).headers)
      ∧ (("Authorization", "Token " ++ t) ∈
        (logoutUserRequest base ((setAuthToken (some t) s).1.authToken)).headers)
      ∧ (("Authorization", "Token " ++ t) ∈
        (linkCampfireAccountRequest base
          ((setAuthToken (some t) s).1.authToken) memberId username).headers)
      ∧ (("Authorization", "Token " ++ t) ∈
        (unlinkCampfireAccountRequest base
          ((setAuthToken (some t) s).1.authToken)).headers))
    ∧ (hasHeaderNamed (importCampfireClubHistoryRequest base
          ((clearAuthToken s2).1.authToken) clubRef) "Authorization" = false
      ∧ hasHeaderNamed (logoutUserRequest base
          ((clearAuthToken s2).1.authToken)) "Authorization" = false
      ∧ hasHeaderNamed (linkCampfireAccountRequest base
          ((clearAuthToken s2).1.authToken) memberId username) "Authorization" = false
      ∧ hasHeaderNamed (unlinkCampfireAccountRequest base
          ((clearAuthToken s2).1.authToken)) "Authorization" = false) := by
  have htr : strTruthy (some t) = true := by simp [strTruthy, ht]
  have hn : strTruthy none = false := rfl
  simp [importCampfireClubHistoryRequest, logoutUserRequest, linkCampfireAccountRequest,
    unlinkCampfireAccountRequest, withAuth, setAuthToken, clearAuthToken,
    hasHeaderNamed, htr, hn]

/-- C4 witness: with the token abc set, logoutUser carries the header
Authorization: Token abc; after clearAuthToken it carries none. -/
theorem c4_witness :
    ("Authorization", "Token abc") ∈
      (logoutUserRequest defaultApiBaseUrl
        ((setAuthToken (some "abc") { authToken := none }).1.authToken)).headers
    ∧ hasHeaderNamed (logoutUserRequest defaultApiBaseUrl
        ((clearAuthToken { authToken := some "abc" }).1.authToken)) "Authorization" = false := by
  have h := c4_auth_header_attachment "abc" (by decide) defaultApiBaseUrl
    "club-ref" "member" "user" { authToken := none } { authToken := some "abc" }
  exact ⟨h.1.2.1, h.2.2.1⟩

/-- C9: a falsy stored token (null or the empty string) is
indistinguishable from a cleared one: no authenticated operation
attaches an Authorization header. -/
theorem c9_falsy_token_no_auth_header (tok : Option String)
    (h : tok = none ∨ tok = some "")
    (base clubRef memberId username : String) (s : ClientState) :
    hasHeaderNamed (importCampfireClubHistoryRequest base
        ((setAuthToken tok s).1.authToken) clubRef) "Authorization" = false
    ∧ hasHeaderNamed (logoutUserRequest base
        ((setAuthToken tok s).1.authToken)) "Authorization" = false
    ∧ hasHeaderNamed (linkCampfireAccountRequest base
        ((setAuthToken tok s).1.authToken) memberId username) "Authorization" = false
    ∧ hasHeaderNamed (unlinkCampfireAccountRequest base
        ((setAuthToken tok s).1.authToken)) "Authorization" = false := by
  have htr : strTruthy tok = false := by rcases h with h | h <;> simp [strTruthy, h]
  simp [importCampfireClubHistoryRequest, logoutUserRequest, linkCampfireAccountRequest,
    unlinkCampfireAccountRequest, withAuth, setAuthToken, hasHeaderNamed, htr]

/-- C9 witness: after setAuthToken with the empty string, logoutUser
carries no Authorization header. -/
theorem c9_witness :
    hasHeaderNamed (logoutUserRequest defaultApiBaseUrl
      ((setAuthToken (some "") { authToken := some "old" }).1.authToken))
      "Authorization" = false :=
  (c9_falsy_token_no_auth_header (some "") (Or.inr rfl) defaultApiBaseUrl
    "club-ref" "member" "user" { authToken := some "old" }).2.1

/-- C5 counterexample: storeCampfireToken is not designated authenticated
by the spec, yet with the token abc set its request does carry the header
Authorization: Token abc, because its headers pass through withAuth. -/
theorem c5_counterexample_store_token_authenticated :
    hasHeaderNamed (storeCampfireTokenRequest defaultApiBaseUrl (some "abc")
      "campfire-token") "Authorization" = true
    ∧ ("Authorization", "Token abc") ∈
      (storeCampfireTokenRequest defaultApiBaseUrl (some "abc") "campfire-token").headers :=
  ⟨rfl, by decide⟩

/-- C5 (amended): getHealth, registerUser and loginUser never attach an
Authorization header (their requests carry no such header whatever the
stored token, which they do not read); importCampfireEvent,
storeCampfireToken and lookupCampfireClub pass their headers through
withAuth and therefore do attach Authorization: Token t whenever a
truthy token t is set. -/
theorem c5_unauth_operations_headers (t : String) (ht : t ≠ "")
    (base uname pw ev tokv : String) (args : LookupArgs) :
    hasHeaderNamed (getHealthRequest base) "Authorization" = false
    ∧ hasHeaderNamed (registerUserRequest base uname pw) "Authorization" = false
    ∧ hasHeaderNamed (loginUserRequest base uname pw) "Authorization" = false
    ∧ ("Authorization", "Token " ++ t) ∈
        (importCampfireEventRequest base (some t) ev).headers
    ∧ ("Authorization", "Token " ++ t) ∈
        (storeCampfireTokenRequest base (some t) tokv).headers
    ∧ ("Authorization", "Token " ++ t) ∈
        (lookupCampfireClubRequest base (some t) args).headers := by
  have htr : strTruthy (some t) = true := by simp [strTruthy, ht]
  simp [getHealthRequest, registerUserRequest, loginUserRequest,
    importCampfireEventRequest, storeCampfireTokenRequest, lookupCampfireClubRequest,
    withAuth, hasHeaderNamed, htr]

/-- C5 witness: at the default base URL with token abc set, registerUser
carries no Authorization header while importCampfireEvent carries
Authorization: Token abc. -/
theorem c5_witness :
    hasHeaderNamed (registerUserRequest defaultApiBaseUrl "u" "p") "Authorization" = false
    ∧ ("Authorization", "Token abc") ∈
      (importCampfireEventRequest defaultApiBaseUrl (some "abc") "event-1").headers := by
  have h := c5_unauth_operations_headers "abc" (by decide) defaultApiBaseUrl
    "u" "p" "event-1" "tok" { query := none, id := none, url := none }
  exact ⟨h.2.1, h.2.2.2.1⟩
